import Mathlib

/-!
Verification development for a beanstalkd client library (Rust).

The embedding models the protocol engine at the byte level: the response
framer (`Request.send` in `request.rs`), the session dispatcher
(`Beanstalkc.send` in `beanstalkc.rs`), and the job-handle state machine
(`job.rs`).  The crate modules `command.rs`, `config.rs`, `error.rs` and
`response.rs` are not present in the sources; the definitions taken from
them are modelled from the specification and say so in their doc comments.

Streams are modelled as lists of bytes (`List Nat`); a session's readable
side is the list of bytes the server will produce, and every operation
additionally reports the bytes it wrote to the wire, so that "issues no
wire traffic" is a statement about an empty write trace.
-/

deriving instance DecidableEq for Except

namespace Beanstalk

/-- Byte list of an ASCII string, used to build concrete wire data. -/
def bytes (s : String) : List Nat := s.data.map Char.toNat

/-- Modelled from the spec: the status taxonomy (`command.rs` is absent from
the sources).  One constructor per wire status token of section 4.1 and the
status tables of section 6. -/
inductive Status
  | Ok | Reserved | Found
  | Inserted | Buried | NotFound | Deleted | Released | Touched | Kicked
  | Using | Watching | NotIgnored | Paused
  | DeadlineSoon | TimedOut | Draining | JobTooBig | ExpectedCrlf
  | OutOfMemory | InternalError | BadFormat | UnknownCommand
  deriving DecidableEq

/-- Modelled from the spec: the error taxonomy of section 7 (`error.rs` is
absent from the sources).  `IoError` covers read/write failures including a
short body read. -/
inductive BeanstalkcError
  | ConnectionError (msg : String)
  | IoError
  | ProtocolError (msg : String)
  | CommandFailed (msg : String)
  | UnexpectedResponse (msg : String)
  deriving DecidableEq

/-- Whether an error is the `ProtocolError` variant. -/
def BeanstalkcError.isProtocolError : BeanstalkcError → Bool
  | .ProtocolError _ => true
  | _ => false

/-- ASCII whitespace, as recognised by `trim` / `split_whitespace` on the
ASCII wire data. -/
def isWS (b : Nat) : Bool := b == 32 || b == 9 || b == 10 || b == 13

/-- Model of `read_line`: bytes up to and including the first newline (byte 10);
at end of stream, whatever was read so far.  Returns the line and the rest
of the stream. -/
def readLine : List Nat → List Nat × List Nat
  | [] => ([], [])
  | b :: rest =>
    if b == 10 then ([b], rest)
    else
      let p := readLine rest
      (b :: p.1, p.2)

/-- Helper for `splitWS`: `acc` holds the bytes of the current token in
reverse. -/
def splitWSAux : List Nat → List Nat → List (List Nat)
  | [], acc => if acc = [] then [] else [acc.reverse]
  | b :: rest, acc =>
    if isWS b then
      if acc = [] then splitWSAux rest []
      else acc.reverse :: splitWSAux rest []
    else splitWSAux rest (b :: acc)

/-- Model of `split_whitespace`: maximal runs of non-whitespace bytes, in order. -/
def splitWS (l : List Nat) : List (List Nat) := splitWSAux l []

/-- ASCII decimal digit. -/
def isDigit (b : Nat) : Bool := 48 ≤ b && b ≤ 57

/-- Parse a token of decimal digits as a natural number (`str::parse` on an
unsigned integer target, restricted to the plain-digits form the server
emits): non-empty, digits only. -/
def parseNatBytes (l : List Nat) : Option Nat :=
  if l ≠ [] && l.all isDigit then
    some (l.foldl (fun a b => a * 10 + (b - 48)) 0)
  else none

/-- Modelled from the spec: `Status::from_str` (`command.rs` is absent from
the sources).  Resolves the first whitespace-delimited token to a status,
failing with a `ProtocolError` on an unrecognised token (section 4.1). -/
def Status.from_str (tok : List Nat) : Except BeanstalkcError Status :=
  if tok = bytes "OK" then .ok .Ok
  else if tok = bytes "RESERVED" then .ok .Reserved
  else if tok = bytes "FOUND" then .ok .Found
  else if tok = bytes "INSERTED" then .ok .Inserted
  else if tok = bytes "BURIED" then .ok .Buried
  else if tok = bytes "NOT_FOUND" then .ok .NotFound
  else if tok = bytes "DELETED" then .ok .Deleted
  else if tok = bytes "RELEASED" then .ok .Released
  else if tok = bytes "TOUCHED" then .ok .Touched
  else if tok = bytes "KICKED" then .ok .Kicked
  else if tok = bytes "USING" then .ok .Using
  else if tok = bytes "WATCHING" then .ok .Watching
  else if tok = bytes "NOT_IGNORED" then .ok .NotIgnored
  else if tok = bytes "PAUSED" then .ok .Paused
  else if tok = bytes "DEADLINE_SOON" then .ok .DeadlineSoon
  else if tok = bytes "TIMED_OUT" then .ok .TimedOut
  else if tok = bytes "DRAINING" then .ok .Draining
  else if tok = bytes "JOB_TOO_BIG" then .ok .JobTooBig
  else if tok = bytes "EXPECTED_CRLF" then .ok .ExpectedCrlf
  else if tok = bytes "OUT_OF_MEMORY" then .ok .OutOfMemory
  else if tok = bytes "INTERNAL_ERROR" then .ok .InternalError
  else if tok = bytes "BAD_FORMAT" then .ok .BadFormat
  else if tok = bytes "UNKNOWN_COMMAND" then .ok .UnknownCommand
  else .error (.ProtocolError "unknown status")

/-- Rust `Debug` rendering of a status, used in the `CommandFailed` /
`UnexpectedResponse` messages built by `format` in `Beanstalkc::send`. -/
def Status.debugName : Status → String
  | .Ok => "Ok" | .Reserved => "Reserved" | .Found => "Found"
  | .Inserted => "Inserted" | .Buried => "Buried" | .NotFound => "NotFound"
  | .Deleted => "Deleted" | .Released => "Released" | .Touched => "Touched"
  | .Kicked => "Kicked" | .Using => "Using" | .Watching => "Watching"
  | .NotIgnored => "NotIgnored" | .Paused => "Paused"
  | .DeadlineSoon => "DeadlineSoon" | .TimedOut => "TimedOut"
  | .Draining => "Draining" | .JobTooBig => "JobTooBig"
  | .ExpectedCrlf => "ExpectedCrlf" | .OutOfMemory => "OutOfMemory"
  | .InternalError => "InternalError" | .BadFormat => "BadFormat"
  | .UnknownCommand => "UnknownCommand"

/-- The decoded response of `response.rs`: status token, remaining
status-line tokens in order, optional body bytes. -/
structure Response where
  status : Status
  params : List (List Nat)
  body : Option (List Nat)
  deriving DecidableEq

/-- Modelled from the spec: `Response::get_int_param` (`response.rs` is
absent from the sources).  Numeric access to argument slot `i`, failing
with a `ProtocolError` if the slot is missing or non-numeric
(section 4.3). -/
def Response.get_int_param (r : Response) (i : Nat) :
    Except BeanstalkcError Nat :=
  match r.params.get? i with
  | none => .error (.ProtocolError "missing parameter")
  | some tok =>
    match parseNatBytes tok with
    | none => .error (.ProtocolError "non-numeric parameter")
    | some n => .ok n

/-- Body-reading tail of `Request::send` (`request.rs` lines 40-55): take
the body length from parameter slot `slot`, read exactly `length + 2`
bytes (a short read is a fatal I/O error), truncate off the two trailing
delimiter bytes and store the rest as the body. -/
def readBody (resp : Response) (slot : Nat) (rest : List Nat) :
    Except BeanstalkcError Response × List Nat :=
  match resp.get_int_param slot with
  | .error e => (.error e, rest)
  | .ok n =>
    if rest.length < n + 2 then (.error .IoError, [])
    else (.ok { resp with body := some (rest.take n) }, rest.drop (n + 2))

/-- Model of `Request::send` (`request.rs`): writes `message` to the stream, reads
one status line from `input`, errors on an all-whitespace line, resolves
the status, and reads a body for exactly the `Ok` (slot 0), `Reserved` and
`Found` (slot 1) statuses.  Returns the outcome together with the bytes
left on the stream. -/
def Request.send (_message : List Nat) (input : List Nat) :
    Except BeanstalkcError Response × List Nat :=
  let p := readLine input
  let line := p.1
  let rest := p.2
  if line.all isWS then (.error (.UnexpectedResponse "empty response"), rest)
  else
    match Status.from_str ((splitWS line).headD []) with
    | .error e => (.error e, rest)
    | .ok st =>
      let resp : Response := ⟨st, (splitWS line).tail, none⟩
      match st with
      | .Ok => readBody resp 0 rest
      | .Reserved => readBody resp 1 rest
      | .Found => readBody resp 1 rest
      | _ => (.ok resp, rest)

/-- Modelled from the spec: a command descriptor (`command.rs` is absent
from the sources) — the wire bytes of the request (line plus optional
payload) and the two status sets the session dispatcher consults
(sections 3 and 4.2). -/
structure Command where
  build : List Nat
  expected_ok_status : List Status
  expected_error_status : List Status
  deriving DecidableEq

/-- Decimal rendering of a natural number as ASCII bytes, for request
lines. -/
def natBytes (n : Nat) : List Nat := (Nat.toDigits 10 n).map Char.toNat

/-- Modelled from the spec: `command::delete` — ok `DELETED`, error
`NOT_FOUND` (section 6 status table). -/
def command.delete (id : Nat) : Command :=
  ⟨bytes "delete " ++ natBytes id ++ bytes "\r\n", [.Deleted], [.NotFound]⟩

/-- Modelled from the spec: `command::release` — ok `RELEASED`, errors
`BURIED` and `NOT_FOUND` (section 6 status table; durations rendered as
whole seconds, section 4.2). -/
def command.release (id : Nat) (priority : Nat) (delay : Nat) : Command :=
  ⟨bytes "release " ++ natBytes id ++ bytes " " ++ natBytes priority ++
     bytes " " ++ natBytes delay ++ bytes "\r\n",
   [.Released], [.Buried, .NotFound]⟩

/-- Modelled from the spec: `command::bury` — ok `BURIED`, error
`NOT_FOUND` (section 6 status table). -/
def command.bury (id : Nat) (priority : Nat) : Command :=
  ⟨bytes "bury " ++ natBytes id ++ bytes " " ++ natBytes priority ++
     bytes "\r\n",
   [.Buried], [.NotFound]⟩

/-- Modelled from the spec: `command::touch` — ok `TOUCHED`, error
`NOT_FOUND` (section 6 status table). -/
def command.touch (id : Nat) : Command :=
  ⟨bytes "touch " ++ natBytes id ++ bytes "\r\n", [.Touched], [.NotFound]⟩

/-- Modelled from the spec: `command::kick_job` — ok `KICKED`, error
`NOT_FOUND` (section 6 status table). -/
def command.kick_job (id : Nat) : Command :=
  ⟨bytes "kick-job " ++ natBytes id ++ bytes "\r\n", [.Kicked], [.NotFound]⟩

/-- Modelled from the spec: `command::stats_job` — ok `OK` with body,
error `NOT_FOUND` (section 6 status table). -/
def command.stats_job (id : Nat) : Command :=
  ⟨bytes "stats-job " ++ natBytes id ++ bytes "\r\n", [.Ok], [.NotFound]⟩

/-- Modelled from the spec: `command::reserve`, optionally with a timeout
in whole seconds — ok `RESERVED`, errors `DEADLINE_SOON` and `TIMED_OUT`
(section 6 status table). -/
def command.reserve : Option Nat → Command
  | none => ⟨bytes "reserve\r\n", [.Reserved], [.DeadlineSoon, .TimedOut]⟩
  | some t =>
    ⟨bytes "reserve-with-timeout " ++ natBytes t ++ bytes "\r\n",
     [.Reserved], [.DeadlineSoon, .TimedOut]⟩

/-- Modelled from the spec: `command::peek_job` — ok `FOUND`, error
`NOT_FOUND` (section 6 status table). -/
def command.peek_job (id : Nat) : Command :=
  ⟨bytes "peek " ++ natBytes id ++ bytes "\r\n", [.Found], [.NotFound]⟩

/-- Modelled from the spec: `command::peek_ready` — ok `FOUND`, error
`NOT_FOUND` (section 6 status table). -/
def command.peek_ready : Command :=
  ⟨bytes "peek-ready\r\n", [.Found], [.NotFound]⟩

/-- Modelled from the spec: `command::quit` — the quit line; the spec's
status table declares no statuses for it (its response is discarded by
`close`). -/
def command.quit : Command := ⟨bytes "quit\r\n", [], []⟩

/-- Modelled from the spec: `config.rs` is absent from the sources.  The
fixed default job priority the job handle falls back to; the claims depend
only on it being one fixed constant, not on its numeric value. -/
def DEFAULT_JOB_PRIORITY : Nat := 2147483648

/-- Modelled from the spec: `config.rs` is absent from the sources.  The
default delay, in whole seconds. -/
def DEFAULT_JOB_DELAY : Nat := 0

/-- The session of `beanstalkc.rs`: host, port, optional connect timeout
(in seconds), and the stream — `none` before connect / absent, `some`
holding the bytes still readable from the server. -/
structure Beanstalkc where
  host : String
  port : Nat
  connection_timeout : Option Nat
  stream : Option (List Nat)
  deriving DecidableEq

/-- Model of `Beanstalkc::send` (`beanstalkc.rs` lines 725-745): fail with
`ConnectionError` when no stream is held (writing nothing), otherwise
write the command's bytes, frame one response, and classify its status
against the command's two status sets.  Returns the outcome, the updated
session, and the bytes written to the wire. -/
def Beanstalkc.send (c : Beanstalkc) (cmd : Command) :
    Except BeanstalkcError Response × Beanstalkc × List Nat :=
  match c.stream with
  | none => (.error (.ConnectionError "invalid connection"), c, [])
  | some input =>
    let p := Request.send cmd.build input
    let c' : Beanstalkc := { c with stream := some p.2 }
    match p.1 with
    | .error e => (.error e, c', cmd.build)
    | .ok resp =>
      if cmd.expected_ok_status.contains resp.status then
        (.ok resp, c', cmd.build)
      else if cmd.expected_error_status.contains resp.status then
        (.error (.CommandFailed resp.status.debugName), c', cmd.build)
      else
        (.error (.UnexpectedResponse resp.status.debugName), c', cmd.build)

/-- Model of `Beanstalkc::close` (`beanstalkc.rs` lines 142-145): send `quit` and
discard the result — only the session survives, any error is dropped. -/
def Beanstalkc.close (c : Beanstalkc) : Beanstalkc :=
  (c.send command.quit).2.1

/-- Model of `Beanstalkc::connect` (`beanstalkc.rs` lines 122-139): `res` is the
outcome of establishing the TCP stream (the new stream's readable bytes on
success); on success the session holds the new stream, on failure the
error is returned. -/
def Beanstalkc.connect (c : Beanstalkc)
    (res : Except BeanstalkcError (List Nat)) :
    Except BeanstalkcError Beanstalkc :=
  match res with
  | .ok st => .ok { c with stream := some st }
  | .error e => .error e

/-- Model of `Beanstalkc::reconnect` (`beanstalkc.rs` lines 160-163): close, then
connect. -/
def Beanstalkc.reconnect (c : Beanstalkc)
    (res : Except BeanstalkcError (List Nat)) :
    Except BeanstalkcError Beanstalkc :=
  (c.close).connect res

/-- Modelled from the spec: `Response::job_id` (`response.rs` is absent
from the sources) — the numeric job id is argument slot 0 (sections 3
and 4.3). -/
def Response.job_id (r : Response) : Except BeanstalkcError Nat :=
  r.get_int_param 0

/-- Model of `Beanstalkc::delete` (`beanstalkc.rs` line 602): send `delete`,
discard the response value. -/
def Beanstalkc.delete (c : Beanstalkc) (job_id : Nat) :
    Except BeanstalkcError Unit × Beanstalkc × List Nat :=
  let p := c.send (command.delete job_id)
  (p.1.map (fun _ => ()), p.2.1, p.2.2)

/-- Model of `Beanstalkc::release` (`beanstalkc.rs` line 640). -/
def Beanstalkc.release (c : Beanstalkc) (job_id priority delay : Nat) :
    Except BeanstalkcError Unit × Beanstalkc × List Nat :=
  let p := c.send (command.release job_id priority delay)
  (p.1.map (fun _ => ()), p.2.1, p.2.2)

/-- Model of `Beanstalkc::bury` (`beanstalkc.rs` line 683). -/
def Beanstalkc.bury (c : Beanstalkc) (job_id priority : Nat) :
    Except BeanstalkcError Unit × Beanstalkc × List Nat :=
  let p := c.send (command.bury job_id priority)
  (p.1.map (fun _ => ()), p.2.1, p.2.2)

/-- Model of `Beanstalkc::touch` (`beanstalkc.rs` line 702). -/
def Beanstalkc.touch (c : Beanstalkc) (job_id : Nat) :
    Except BeanstalkcError Unit × Beanstalkc × List Nat :=
  let p := c.send (command.touch job_id)
  (p.1.map (fun _ => ()), p.2.1, p.2.2)

/-- Model of `Beanstalkc::kick_job` (`beanstalkc.rs` line 315). -/
def Beanstalkc.kick_job (c : Beanstalkc) (job_id : Nat) :
    Except BeanstalkcError Unit × Beanstalkc × List Nat :=
  let p := c.send (command.kick_job job_id)
  (p.1.map (fun _ => ()), p.2.1, p.2.2)

/-- Bytes back to an ASCII string, for the textual keys and values of a
statistics body. -/
def stringOfBytes (l : List Nat) : String := ⟨l.map Char.ofNat⟩

/-- Strip leading and trailing whitespace bytes. -/
def trimBytes (l : List Nat) : List Nat :=
  ((l.dropWhile isWS).reverse.dropWhile isWS).reverse

/-- Split a body into lines at each newline byte. -/
def splitLines : List Nat → List (List Nat)
  | [] => []
  | b :: rest =>
    if b == 10 then [] :: splitLines rest
    else
      match splitLines rest with
      | [] => [[b]]
      | t :: ts => (b :: t) :: ts

/-- Split a line at its first colon byte, when there is one. -/
def splitFirstColon (l : List Nat) : Option (List Nat × List Nat) :=
  match l with
  | [] => none
  | b :: rest =>
    if b == 58 then some ([], rest)
    else
      match splitFirstColon rest with
      | none => none
      | some p => some (b :: p.1, p.2)

/-- Modelled from the spec: `Response::body_as_map` (`response.rs` is
absent from the sources) — decode the body as a sequence of key-colon-value
lines into a key-to-value mapping, both kept as plain text (section 4.6);
lines without a colon (such as a leading document marker) contribute no
entry. -/
def Response.body_as_map (r : Response) :
    Except BeanstalkcError (List (String × String)) :=
  .ok ((splitLines (r.body.getD [])).filterMap (fun line =>
    match splitFirstColon line with
    | none => none
    | some p =>
      some (stringOfBytes (trimBytes p.1), stringOfBytes (trimBytes p.2))))

/-- Model of `Beanstalkc::stats_job` (`beanstalkc.rs` line 721): send `stats-job`,
then decode the body as a map. -/
def Beanstalkc.stats_job (c : Beanstalkc) (job_id : Nat) :
    Except BeanstalkcError (List (String × String)) × Beanstalkc × List Nat :=
  let p := c.send (command.stats_job job_id)
  (match p.1 with
   | .error e => .error e
   | .ok resp => resp.body_as_map, p.2.1, p.2.2)

/-- Model of `u32::from_str` as used by `parse` in `Job::priority`: an optional
leading plus sign, then one or more decimal digits, value within the
unsigned 32-bit range. -/
def parseU32 (s : String) : Option Nat :=
  let ds := match s.data with
    | '+' :: rest => rest
    | l => l
  if ds ≠ [] && ds.all Char.isDigit then
    let n := ds.foldl (fun a c => a * 10 + (c.toNat - 48)) 0
    if n < 4294967296 then some n else none
  else none

/-- The job handle of `job.rs`: id, body bytes, reserved flag.  The
`&mut Beanstalkc` the Rust struct holds is passed explicitly to each
method (the spec's section 9 names this as the equivalent modelling). -/
structure Job where
  id : Nat
  body : List Nat
  reserved : Bool
  deriving DecidableEq

/-- The result shape of a job method: outcome, updated job, updated
session, bytes written to the wire. -/
def JobOutcome (α : Type) :=
  Except BeanstalkcError α × Job × Beanstalkc × List Nat

/-- Model of `Job::delete` (`job.rs` lines 70-74): always sends `delete`; on
success sets `reserved` to false, on error leaves the job unchanged. -/
def Job.delete (j : Job) (c : Beanstalkc) : JobOutcome Unit :=
  let p := c.delete j.id
  match p.1 with
  | .error e => (.error e, j, p.2.1, p.2.2)
  | .ok _ => (.ok (), { j with reserved := false }, p.2.1, p.2.2)

/-- Model of `Job::release` (`job.rs` lines 112-120): a silent success without
contacting the session when not reserved; otherwise sends `release` and on
success sets `reserved` to false. -/
def Job.release (j : Job) (c : Beanstalkc) (priority delay : Nat) :
    JobOutcome Unit :=
  if !j.reserved then (.ok (), j, c, [])
  else
    let p := c.release j.id priority delay
    match p.1 with
    | .error e => (.error e, j, p.2.1, p.2.2)
    | .ok _ => (.ok (), { j with reserved := false }, p.2.1, p.2.2)

/-- Model of `Job::bury` (`job.rs` lines 159-167): a silent success without
contacting the session when not reserved; otherwise sends `bury` and on
success sets `reserved` to false. -/
def Job.bury (j : Job) (c : Beanstalkc) (priority : Nat) : JobOutcome Unit :=
  if !j.reserved then (.ok (), j, c, [])
  else
    let p := c.bury j.id priority
    match p.1 with
    | .error e => (.error e, j, p.2.1, p.2.2)
    | .ok _ => (.ok (), { j with reserved := false }, p.2.1, p.2.2)

/-- Model of `Job::touch` (`job.rs` lines 205-211): a silent success without
contacting the session when not reserved; otherwise sends `touch`.  The
reserved flag is never changed. -/
def Job.touch (j : Job) (c : Beanstalkc) : JobOutcome Unit :=
  if !j.reserved then (.ok (), j, c, [])
  else
    let p := c.touch j.id
    (p.1, j, p.2.1, p.2.2)

/-- Model of `Job::kick` (`job.rs` lines 185-187): always delegates to the
session's `kick_job`, regardless of the reserved flag. -/
def Job.kick (j : Job) (c : Beanstalkc) : JobOutcome Unit :=
  let p := c.kick_job j.id
  (p.1, j, p.2.1, p.2.2)

/-- Model of `Job::stats` (`job.rs` lines 230-232): proxies `stats-job` by id. -/
def Job.stats (j : Job) (c : Beanstalkc) :
    JobOutcome (List (String × String)) :=
  let p := c.stats_job j.id
  (p.1, j, p.2.1, p.2.2)

/-- Model of `Job::priority` (`job.rs` lines 235-241): the value of the `pri` key
of the job's stats parsed as an unsigned 32-bit number, falling back to
`DEFAULT_JOB_PRIORITY` when the stats call fails, the key is absent, or
the value does not parse. -/
def Job.priority (j : Job) (c : Beanstalkc) :
    Nat × Job × Beanstalkc × List Nat :=
  let p := j.stats c
  let stats := match p.1 with
    | .ok m => m
    | .error _ => []
  (match stats.lookup "pri" with
   | some x => (parseU32 x).getD DEFAULT_JOB_PRIORITY
   | none => DEFAULT_JOB_PRIORITY,
   p.2.1, p.2.2.1, p.2.2.2)

/-- Model of `Job::release_default` (`job.rs` lines 91-94): fetch the current
priority, then release with it and the default delay. -/
def Job.release_default (j : Job) (c : Beanstalkc) : JobOutcome Unit :=
  let p := j.priority c
  let q := p.2.1.release p.2.2.1 p.1 DEFAULT_JOB_DELAY
  (q.1, q.2.1, q.2.2.1, p.2.2.2 ++ q.2.2.2)

/-- Model of `Job::bury_default` (`job.rs` lines 138-141): fetch the current
priority, then bury with it. -/
def Job.bury_default (j : Job) (c : Beanstalkc) : JobOutcome Unit :=
  let p := j.priority c
  let q := p.2.1.bury p.2.2.1 p.1
  (q.1, q.2.1, q.2.2.1, p.2.2.2 ++ q.2.2.2)

/-- Model of `Beanstalkc::reserve` (`beanstalkc.rs` lines 240-248): send `reserve`,
build a job from the response's id and body with `reserved` true. -/
def Beanstalkc.reserve (c : Beanstalkc) :
    Except BeanstalkcError Job × Beanstalkc × List Nat :=
  let p := c.send (command.reserve none)
  (match p.1 with
   | .error e => .error e
   | .ok resp =>
     match resp.job_id with
     | .error e => .error e
     | .ok id => .ok ⟨id, resp.body.getD [], true⟩,
   p.2.1, p.2.2)

/-- Model of `Beanstalkc::reserve_with_timeout` (`beanstalkc.rs` lines 271-279):
like `reserve`, with a timeout in whole seconds; `reserved` is true. -/
def Beanstalkc.reserve_with_timeout (c : Beanstalkc) (t : Nat) :
    Except BeanstalkcError Job × Beanstalkc × List Nat :=
  let p := c.send (command.reserve (some t))
  (match p.1 with
   | .error e => .error e
   | .ok resp =>
     match resp.job_id with
     | .error e => .error e
     | .ok id => .ok ⟨id, resp.body.getD [], true⟩,
   p.2.1, p.2.2)

/-- Model of `Beanstalkc::do_peek` (`beanstalkc.rs` lines 398-406): send the given
peek command, build a job from the response's id and body with `reserved`
false. -/
def Beanstalkc.do_peek (c : Beanstalkc) (cmd : Command) :
    Except BeanstalkcError Job × Beanstalkc × List Nat :=
  let p := c.send cmd
  (match p.1 with
   | .error e => .error e
   | .ok resp =>
     match resp.job_id with
     | .error e => .error e
     | .ok id => .ok ⟨id, resp.body.getD [], false⟩,
   p.2.1, p.2.2)

/-- One invocation of a job-handle method, for stating the reserved-flag
invariant over every method of `job.rs`. -/
inductive JobCall
  | callDelete
  | callRelease (priority delay : Nat)
  | callReleaseDefault
  | callBury (priority : Nat)
  | callBuryDefault
  | callTouch
  | callKick
  | callStats

/-- Run one job-handle method, keeping only the job and session it leaves
behind. -/
def jobStep (call : JobCall) (j : Job) (c : Beanstalkc) : Job × Beanstalkc :=
  match call with
  | .callDelete => ((j.delete c).2.1, (j.delete c).2.2.1)
  | .callRelease pr d => ((j.release c pr d).2.1, (j.release c pr d).2.2.1)
  | .callReleaseDefault =>
    ((j.release_default c).2.1, (j.release_default c).2.2.1)
  | .callBury pr => ((j.bury c pr).2.1, (j.bury c pr).2.2.1)
  | .callBuryDefault => ((j.bury_default c).2.1, (j.bury_default c).2.2.1)
  | .callTouch => ((j.touch c).2.1, (j.touch c).2.2.1)
  | .callKick => ((j.kick c).2.1, (j.kick c).2.2.1)
  | .callStats => ((j.stats c).2.1, (j.stats c).2.2.1)

/-- A concrete session with a live stream holding the given readable
bytes, used by the witnesses. -/
def sessionWith (input : List Nat) : Beanstalkc :=
  ⟨"localhost", 11300, none, some input⟩

/-- When the session holds a stream, `send` writes exactly the command's
wire bytes. -/
theorem send_writes (c : Beanstalkc) (cmd : Command) (input : List Nat)
    (h : c.stream = some input) : (c.send cmd).2.2 = cmd.build := by
  unfold Beanstalkc.send
  rw [h]
  rcases hr : (Request.send cmd.build input).1 with e | r
  · simp [hr]
  · simp only [hr]
    split <;> first | rfl | (split <;> rfl)

/-- The dispatcher `send` never changes the host, port or connect-timeout
fields. -/
theorem send_config (c : Beanstalkc) (cmd : Command) :
    ((c.send cmd).2.1).host = c.host ∧
    ((c.send cmd).2.1).port = c.port ∧
    ((c.send cmd).2.1).connection_timeout = c.connection_timeout := by
  unfold Beanstalkc.send
  rcases hs : c.stream with _ | input
  · simp
  · rcases hr : (Request.send cmd.build input).1 with e | r
    · simp [hr]
    · simp only [hr]
      refine ⟨?_, ?_, ?_⟩ <;> (split <;> first | rfl | (split <;> rfl))

/-- C7: invoking `Beanstalkc::send` while the session holds no stream
fails with `ConnectionError` and writes nothing to the wire, for every
command. -/
theorem C7_send_without_stream (cmd : Command) (c : Beanstalkc)
    (h : c.stream = none) :
    c.send cmd = (.error (.ConnectionError "invalid connection"), c, []) := by
  unfold Beanstalkc.send
  rw [h]

/-- Witness for C7 at the `delete 1` command and a fresh unconnected
session. -/
theorem C7_witness :
    Beanstalkc.send ⟨"localhost", 11300, none, none⟩ (command.delete 1) =
      (.error (.ConnectionError "invalid connection"),
       ⟨"localhost", 11300, none, none⟩, []) :=
  C7_send_without_stream (command.delete 1) ⟨"localhost", 11300, none, none⟩
    rfl

/-- Counterexample to C4: on an empty stream (connection closed mid-read)
the framer fails with `UnexpectedResponse "empty response"`, which is not
the `ProtocolError` variant the claim names. -/
theorem C4_counterexample :
    Request.send (bytes "reserve\r\n") [] =
      (.error (.UnexpectedResponse "empty response"), []) ∧
    (BeanstalkcError.UnexpectedResponse "empty response").isProtocolError
      = false := by
  decide

/-- C4 as amended: when the response framer reads an empty (here:
all-whitespace, which includes length-zero) status line, the operation
fails with `UnexpectedResponse "empty response"`, for every request
message and also through `Beanstalkc::send` for every command whose
session stream is exhausted. -/
theorem C4_empty_line (msg input : List Nat) (cmd : Command)
    (c : Beanstalkc)
    (hline : ((readLine input).1).all isWS = true)
    (hstream : c.stream = some []) :
    Request.send msg input =
      (.error (.UnexpectedResponse "empty response"), (readLine input).2) ∧
    (c.send cmd).1 = .error (.UnexpectedResponse "empty response") := by
  constructor
  · unfold Request.send
    simp [hline]
  · unfold Beanstalkc.send
    rw [hstream]
    simp [Request.send, readLine, isWS]

/-- Witness for C4: the empty stream and the `reserve` command on a
session whose stream is exhausted. -/
theorem C4_witness :
    Request.send (bytes "reserve\r\n") [] =
      (.error (.UnexpectedResponse "empty response"), (readLine []).2) ∧
    ((sessionWith []).send (command.reserve none)).1 =
      .error (.UnexpectedResponse "empty response") :=
  C4_empty_line (bytes "reserve\r\n") [] (command.reserve none)
    (sessionWith []) (by decide) rfl

/-- Counterexample to C3: `Job::delete` on a job whose reserved flag is
false still issues the delete command to the session — the wire trace of
deleting the non-reserved job 1 is the `delete 1` request line, not
empty. -/
theorem C3_counterexample :
    (Job.delete ⟨1, [], false⟩ (sessionWith (bytes "DELETED\r\n"))).2.2.2 =
      bytes "delete 1\r\n" ∧
    (Job.delete ⟨1, [], false⟩ (sessionWith (bytes "DELETED\r\n"))).2.2.2 ≠
      [] := by
  decide

/-- C3 as amended: for every Job whose reserved flag is false,
`Job::release` and `Job::bury` are silent no-ops that return success and
issue no wire traffic (session untouched); `Job::delete`, by contrast,
always issues the delete command to the session regardless of the flag,
so a second delete after a successful first call is not a no-op. -/
theorem C3_nonreserved_noop (j : Job) (c : Beanstalkc)
    (priority delay : Nat) (input : List Nat)
    (hres : j.reserved = false)
    (hstream : c.stream = some input) :
    j.release c priority delay = (.ok (), j, c, []) ∧
    j.bury c priority = (.ok (), j, c, []) ∧
    (j.delete c).2.2.2 = (command.delete j.id).build := by
  refine ⟨?_, ?_, ?_⟩
  · unfold Job.release
    rw [hres]
    rfl
  · unfold Job.bury
    rw [hres]
    rfl
  · have hw : (Beanstalkc.delete c j.id).2.2 = (command.delete j.id).build :=
      send_writes c (command.delete j.id) input hstream
    unfold Job.delete
    rcases hd : (Beanstalkc.delete c j.id).1 with e | u
    · simp [hd, hw]
    · simp [hd, hw]

/-- Witness for C3 (amended) at job 1, non-reserved, on a live session. -/
theorem C3_witness :
    Job.release ⟨1, [], false⟩ (sessionWith (bytes "RELEASED\r\n")) 0 0 =
      (.ok (), ⟨1, [], false⟩, sessionWith (bytes "RELEASED\r\n"), []) ∧
    Job.bury ⟨1, [], false⟩ (sessionWith (bytes "RELEASED\r\n")) 0 =
      (.ok (), ⟨1, [], false⟩, sessionWith (bytes "RELEASED\r\n"), []) ∧
    (Job.delete ⟨1, [], false⟩
        (sessionWith (bytes "RELEASED\r\n"))).2.2.2 =
      (command.delete 1).build :=
  C3_nonreserved_noop ⟨1, [], false⟩ (sessionWith (bytes "RELEASED\r\n"))
    0 0 (bytes "RELEASED\r\n") rfl rfl

/-- C6: `Job::touch` returns success without contacting the session when
the reserved flag is false, and `Job::kick` always delegates to the
session's `kick_job` — issuing the kick-job request line whenever a
stream is held — regardless of the reserved flag. -/
theorem C6_touch_kick (j : Job) (c : Beanstalkc) (input : List Nat)
    (hstream : c.stream = some input) :
    (j.reserved = false → j.touch c = (.ok (), j, c, [])) ∧
    j.kick c = ((c.kick_job j.id).1, j, (c.kick_job j.id).2.1,
      (c.kick_job j.id).2.2) ∧
    (j.kick c).2.2.2 = (command.kick_job j.id).build := by
  refine ⟨?_, rfl, ?_⟩
  · intro hres
    unfold Job.touch
    rw [hres]
    rfl
  · exact send_writes c (command.kick_job j.id) input hstream

/-- Witness for C6 at job 7, non-reserved, on a live session. -/
theorem C6_witness :
    Job.touch ⟨7, [], false⟩ (sessionWith (bytes "TOUCHED\r\n")) =
      (.ok (), ⟨7, [], false⟩, sessionWith (bytes "TOUCHED\r\n"), []) ∧
    (Job.kick ⟨7, [], false⟩ (sessionWith (bytes "TOUCHED\r\n"))).2.2.2 =
      (command.kick_job 7).build :=
  ⟨(C6_touch_kick ⟨7, [], false⟩ (sessionWith (bytes "TOUCHED\r\n"))
      (bytes "TOUCHED\r\n") rfl).1 rfl,
   (C6_touch_kick ⟨7, [], false⟩ (sessionWith (bytes "TOUCHED\r\n"))
      (bytes "TOUCHED\r\n") rfl).2.2⟩

/-- C1: for every command whose success and domain-failure status sets are
disjoint (as they are for every command of the status tables) and every
framed response, `Beanstalkc::send` returns the response itself when its
status is in `expected_ok`, fails with `CommandFailed` on a status in
`expected_error`, and fails with `UnexpectedResponse` on any other
status. -/
theorem C1_send_classification (cmd : Command) (c : Beanstalkc)
    (input : List Nat) (resp : Response)
    (hs : c.stream = some input)
    (hframe : (Request.send cmd.build input).1 = .ok resp)
    (hdisj : ∀ s, s ∈ cmd.expected_ok_status →
      s ∉ cmd.expected_error_status) :
    (resp.status ∈ cmd.expected_ok_status → (c.send cmd).1 = .ok resp) ∧
    (resp.status ∈ cmd.expected_error_status →
      (c.send cmd).1 = .error (.CommandFailed resp.status.debugName)) ∧
    (resp.status ∉ cmd.expected_ok_status →
      resp.status ∉ cmd.expected_error_status →
      (c.send cmd).1 = .error (.UnexpectedResponse resp.status.debugName))
    := by
  have hsend : (c.send cmd).1 =
      (if cmd.expected_ok_status.contains resp.status then .ok resp
       else if cmd.expected_error_status.contains resp.status then
         .error (.CommandFailed resp.status.debugName)
       else .error (.UnexpectedResponse resp.status.debugName)) := by
    unfold Beanstalkc.send
    rw [hs]
    simp only [hframe]
    split <;> first | rfl | (split <;> rfl)
  refine ⟨?_, ?_, ?_⟩
  · intro h
    have hc : cmd.expected_ok_status.contains resp.status = true :=
      List.elem_iff.mpr h
    rw [hsend, hc]
    simp
  · intro h
    have hc : cmd.expected_error_status.contains resp.status = true :=
      List.elem_iff.mpr h
    have hnok : cmd.expected_ok_status.contains resp.status = false := by
      rw [Bool.eq_false_iff]
      intro hm
      exact hdisj resp.status (List.elem_iff.mp hm) h
    rw [hsend, hc, hnok]
    simp
  · intro hno hne
    have hc1 : cmd.expected_ok_status.contains resp.status = false := by
      rw [Bool.eq_false_iff]
      intro hm
      exact hno (List.elem_iff.mp hm)
    have hc2 : cmd.expected_error_status.contains resp.status = false := by
      rw [Bool.eq_false_iff]
      intro hm
      exact hne (List.elem_iff.mp hm)
    rw [hsend, hc1, hc2]
    simp

/-- Witness for C1: the `delete 5` command against `DELETED`, `NOT_FOUND`
and `USING` responses (one per branch of the classification). -/
theorem C1_witness :
    ((sessionWith (bytes "DELETED\r\n")).send (command.delete 5)).1 =
      .ok ⟨.Deleted, [], none⟩ ∧
    ((sessionWith (bytes "NOT_FOUND\r\n")).send (command.delete 5)).1 =
      .error (.CommandFailed "NotFound") ∧
    ((sessionWith (bytes "USING default\r\n")).send (command.delete 5)).1 =
      .error (.UnexpectedResponse "Using") :=
  ⟨(C1_send_classification (command.delete 5) _ (bytes "DELETED\r\n")
      ⟨.Deleted, [], none⟩ rfl (by decide) (by decide)).1 (by decide),
   (C1_send_classification (command.delete 5) _ (bytes "NOT_FOUND\r\n")
      ⟨.NotFound, [], none⟩ rfl (by decide) (by decide)).2.1 (by decide),
   (C1_send_classification (command.delete 5) _ (bytes "USING default\r\n")
      ⟨.Using, [bytes "default"], none⟩ rfl (by decide) (by decide)).2.2
      (by decide) (by decide)⟩

/-- C9: `reconnect` is a best-effort close followed by a fresh connect:
errors from the close step never appear in the result (for every prior
session state, including ones whose close fails), a failed connect is
returned to the caller, and a successful reconnect leaves the session
holding exactly the new stream with no state from the prior
connection. -/
theorem C9_reconnect (c : Beanstalkc)
    (res : Except BeanstalkcError (List Nat)) :
    (∀ st, res = .ok st →
      c.reconnect res = .ok ⟨c.host, c.port, c.connection_timeout,
        some st⟩) ∧
    (∀ e, res = .error e → c.reconnect res = .error e) := by
  obtain ⟨h1, h2, h3⟩ := send_config c command.quit
  constructor
  · intro st hres
    subst hres
    unfold Beanstalkc.reconnect Beanstalkc.connect Beanstalkc.close
    simp only []
    rw [h1, h2, h3]
  · intro e hres
    subst hres
    rfl

/-- Witness for C9: reconnecting a session with no stream (whose close
step therefore fails with `ConnectionError`, discarded) succeeds with the
new stream; a failed connect propagates its error. -/
theorem C9_witness :
    Beanstalkc.reconnect ⟨"localhost", 11300, none, none⟩
        (.ok (bytes "OK 0\r\n\r\n")) =
      .ok ⟨"localhost", 11300, none, some (bytes "OK 0\r\n\r\n")⟩ ∧
    Beanstalkc.reconnect ⟨"localhost", 11300, none, none⟩
        (.error (.ConnectionError "refused")) =
      .error (.ConnectionError "refused") :=
  ⟨(C9_reconnect ⟨"localhost", 11300, none, none⟩ _).1
      (bytes "OK 0\r\n\r\n") rfl,
   (C9_reconnect ⟨"localhost", 11300, none, none⟩ _).2
      (.ConnectionError "refused") rfl⟩

/-- C10: for a reserved job, an error from the underlying session
operation inside `Job::delete`, `Job::release` or `Job::bury` is
propagated and the job is left unchanged — the reserved flag stays true
and the id and body are untouched. -/
theorem C10_error_atomicity (j : Job) (c : Beanstalkc)
    (e : BeanstalkcError) (priority delay : Nat)
    (hres : j.reserved = true) :
    ((c.delete j.id).1 = .error e →
      j.delete c = (.error e, j, (c.delete j.id).2.1,
        (c.delete j.id).2.2)) ∧
    ((c.release j.id priority delay).1 = .error e →
      j.release c priority delay =
        (.error e, j, (c.release j.id priority delay).2.1,
          (c.release j.id priority delay).2.2)) ∧
    ((c.bury j.id priority).1 = .error e →
      j.bury c priority =
        (.error e, j, (c.bury j.id priority).2.1,
          (c.bury j.id priority).2.2)) := by
  refine ⟨?_, ?_, ?_⟩ <;> intro h
  · unfold Job.delete
    simp [h]
  · unfold Job.release
    rw [hres]
    simp [h]
  · unfold Job.bury
    rw [hres]
    simp [h]

/-- Witness for C10: job 5, reserved, on sessions answering `NOT_FOUND`
(a `CommandFailed` error from each operation). -/
theorem C10_witness :
    Job.delete ⟨5, [], true⟩ (sessionWith (bytes "NOT_FOUND\r\n")) =
      (.error (.CommandFailed "NotFound"), ⟨5, [], true⟩,
        ((sessionWith (bytes "NOT_FOUND\r\n")).delete 5).2.1,
        ((sessionWith (bytes "NOT_FOUND\r\n")).delete 5).2.2) ∧
    Job.release ⟨5, [], true⟩ (sessionWith (bytes "NOT_FOUND\r\n")) 0 0 =
      (.error (.CommandFailed "NotFound"), ⟨5, [], true⟩,
        ((sessionWith (bytes "NOT_FOUND\r\n")).release 5 0 0).2.1,
        ((sessionWith (bytes "NOT_FOUND\r\n")).release 5 0 0).2.2) ∧
    Job.bury ⟨5, [], true⟩ (sessionWith (bytes "NOT_FOUND\r\n")) 0 =
      (.error (.CommandFailed "NotFound"), ⟨5, [], true⟩,
        ((sessionWith (bytes "NOT_FOUND\r\n")).bury 5 0).2.1,
        ((sessionWith (bytes "NOT_FOUND\r\n")).bury 5 0).2.2) :=
  ⟨(C10_error_atomicity ⟨5, [], true⟩ (sessionWith (bytes "NOT_FOUND\r\n"))
      (.CommandFailed "NotFound") 0 0 rfl).1 (by decide),
   (C10_error_atomicity ⟨5, [], true⟩ (sessionWith (bytes "NOT_FOUND\r\n"))
      (.CommandFailed "NotFound") 0 0 rfl).2.1 (by decide),
   (C10_error_atomicity ⟨5, [], true⟩ (sessionWith (bytes "NOT_FOUND\r\n"))
      (.CommandFailed "NotFound") 0 0 rfl).2.2 (by decide)⟩

/-- C5: the reserved-flag invariant — a job built by `reserve` or
`reserve_with_timeout` starts reserved, a job built by any peek variant
(through `do_peek`) starts non-reserved, no job-handle method ever turns
the flag from false back to true, and a successful `delete`, `release` or
`bury` each leave it false. -/
theorem C5_reserved_flag_invariant :
    (∀ (c : Beanstalkc) (j : Job) (c' : Beanstalkc) (w : List Nat),
      c.reserve = (.ok j, c', w) → j.reserved = true) ∧
    (∀ (c : Beanstalkc) (t : Nat) (j : Job) (c' : Beanstalkc) (w : List Nat),
      c.reserve_with_timeout t = (.ok j, c', w) → j.reserved = true) ∧
    (∀ (c : Beanstalkc) (cmd : Command) (j : Job) (c' : Beanstalkc)
      (w : List Nat), c.do_peek cmd = (.ok j, c', w) → j.reserved = false) ∧
    (∀ (call : JobCall) (j : Job) (c : Beanstalkc),
      j.reserved = false → ((jobStep call j c).1).reserved = false) ∧
    (∀ (j : Job) (c : Beanstalkc), (j.delete c).1 = .ok () →
      ((j.delete c).2.1).reserved = false) ∧
    (∀ (j : Job) (c : Beanstalkc) (pr d : Nat),
      (j.release c pr d).1 = .ok () →
      ((j.release c pr d).2.1).reserved = false) ∧
    (∀ (j : Job) (c : Beanstalkc) (pr : Nat), (j.bury c pr).1 = .ok () →
      ((j.bury c pr).2.1).reserved = false) := by
  refine ⟨?_, ?_, ?_, ?_, ?_, ?_, ?_⟩
  · intro c j c' w h
    unfold Beanstalkc.reserve at h
    rcases hp : (c.send (command.reserve none)).1 with e | resp
    · simp [hp] at h
    · rcases hq : resp.job_id with e2 | id
      · simp [hp, hq] at h
      · simp only [hp, hq, Prod.mk.injEq] at h
        obtain ⟨h1, -, -⟩ := h
        rw [Except.ok.injEq] at h1
        rw [← h1]
  · intro c t j c' w h
    unfold Beanstalkc.reserve_with_timeout at h
    rcases hp : (c.send (command.reserve (some t))).1 with e | resp
    · simp [hp] at h
    · rcases hq : resp.job_id with e2 | id
      · simp [hp, hq] at h
      · simp only [hp, hq, Prod.mk.injEq] at h
        obtain ⟨h1, -, -⟩ := h
        rw [Except.ok.injEq] at h1
        rw [← h1]
  · intro c cmd j c' w h
    unfold Beanstalkc.do_peek at h
    rcases hp : (c.send cmd).1 with e | resp
    · simp [hp] at h
    · rcases hq : resp.job_id with e2 | id
      · simp [hp, hq] at h
      · simp only [hp, hq, Prod.mk.injEq] at h
        obtain ⟨h1, -, -⟩ := h
        rw [Except.ok.injEq] at h1
        rw [← h1]
  · intro call j c hres
    have hrel : ∀ (c2 : Beanstalkc) (pr d : Nat),
        ((j.release c2 pr d).2.1).reserved = false := by
      intro c2 pr d
      unfold Job.release
      simp [hres]
    have hbury : ∀ (c2 : Beanstalkc) (pr : Nat),
        ((j.bury c2 pr).2.1).reserved = false := by
      intro c2 pr
      unfold Job.bury
      simp [hres]
    have hdel : ∀ (c2 : Beanstalkc), ((j.delete c2).2.1).reserved = false := by
      intro c2
      unfold Job.delete
      rcases hd : (c2.delete j.id).1 with e | u
      · simp [hd, hres]
      · simp [hd]
    cases call with
    | callDelete => exact hdel c
    | callRelease pr d => exact hrel c pr d
    | callReleaseDefault => exact hrel ((j.priority c).2.2.1) _ _
    | callBury pr => exact hbury c pr
    | callBuryDefault => exact hbury ((j.priority c).2.2.1) _
    | callTouch =>
      simp [jobStep, Job.touch, hres]
    | callKick => exact hres
    | callStats => exact hres
  · intro j c h
    unfold Job.delete at h ⊢
    rcases hd : (c.delete j.id).1 with e | u
    · simp [hd] at h
    · simp [hd]
  · intro j c pr d h
    unfold Job.release at h ⊢
    by_cases hres : j.reserved = true
    · rw [hres] at h ⊢
      rcases hd : (c.release j.id pr d).1 with e | u
      · simp [hd] at h
      · simp [hd]
    · have hres2 : j.reserved = false := by simpa using hres
      simp [hres2]
  · intro j c pr h
    unfold Job.bury at h ⊢
    by_cases hres : j.reserved = true
    · rw [hres] at h ⊢
      rcases hd : (c.bury j.id pr).1 with e | u
      · simp [hd] at h
      · simp [hd]
    · have hres2 : j.reserved = false := by simpa using hres
      simp [hres2]

/-- Witness for C5: a reserve yielding job 42 reserved, a peek yielding
job 42 non-reserved, a delete call on a non-reserved job leaving it
non-reserved, and a successful delete, release and bury each leaving the
flag false. -/
theorem C5_witness :
    (Job.reserved ⟨42, bytes "hello", true⟩ = true) ∧
    (Job.reserved ⟨42, bytes "hello", false⟩ = false) ∧
    ((jobStep .callDelete ⟨1, [], false⟩
        (sessionWith (bytes "DELETED\r\n"))).1).reserved = false ∧
    ((Job.delete ⟨1, [], true⟩
        (sessionWith (bytes "DELETED\r\n"))).2.1).reserved = false ∧
    ((Job.release ⟨1, [], true⟩
        (sessionWith (bytes "RELEASED\r\n")) 0 0).2.1).reserved = false ∧
    ((Job.bury ⟨1, [], true⟩
        (sessionWith (bytes "BURIED\r\n")) 0).2.1).reserved = false :=
  ⟨C5_reserved_flag_invariant.1
      (sessionWith (bytes "RESERVED 42 5\r\nhello\r\n"))
      ⟨42, bytes "hello", true⟩
      ((sessionWith (bytes "RESERVED 42 5\r\nhello\r\n")).reserve).2.1
      ((sessionWith (bytes "RESERVED 42 5\r\nhello\r\n")).reserve).2.2
      (by decide),
   C5_reserved_flag_invariant.2.2.1
      (sessionWith (bytes "FOUND 42 5\r\nhello\r\n")) command.peek_ready
      ⟨42, bytes "hello", false⟩
      ((sessionWith (bytes "FOUND 42 5\r\nhello\r\n")).do_peek
        command.peek_ready).2.1
      ((sessionWith (bytes "FOUND 42 5\r\nhello\r\n")).do_peek
        command.peek_ready).2.2
      (by decide),
   C5_reserved_flag_invariant.2.2.2.1 .callDelete ⟨1, [], false⟩
      (sessionWith (bytes "DELETED\r\n")) rfl,
   C5_reserved_flag_invariant.2.2.2.2.1 ⟨1, [], true⟩
      (sessionWith (bytes "DELETED\r\n")) (by decide),
   C5_reserved_flag_invariant.2.2.2.2.2.1 ⟨1, [], true⟩
      (sessionWith (bytes "RELEASED\r\n")) 0 0 (by decide),
   C5_reserved_flag_invariant.2.2.2.2.2.2 ⟨1, [], true⟩
      (sessionWith (bytes "BURIED\r\n")) 0 (by decide)⟩

/-- C8: `Job::release_default` and `Job::bury_default` first fetch the
job's current priority from its stats: the `pri` value parsed as an
unsigned 32-bit number when the stats call succeeds, the key is present
and the value parses, and the fixed `DEFAULT_JOB_PRIORITY` when the stats
call fails, the key is absent, or the value does not parse; the fetched
priority is then the one sent in the release / bury request. -/
theorem C8_default_priority (j : Job) (c : Beanstalkc) :
    (∀ e, (j.stats c).1 = .error e →
      (j.priority c).1 = DEFAULT_JOB_PRIORITY) ∧
    (∀ m, (j.stats c).1 = .ok m → m.lookup "pri" = none →
      (j.priority c).1 = DEFAULT_JOB_PRIORITY) ∧
    (∀ m v, (j.stats c).1 = .ok m → m.lookup "pri" = some v →
      parseU32 v = none → (j.priority c).1 = DEFAULT_JOB_PRIORITY) ∧
    (∀ m v n, (j.stats c).1 = .ok m → m.lookup "pri" = some v →
      parseU32 v = some n → (j.priority c).1 = n) ∧
    (j.reserved = true → ∀ s, ((j.priority c).2.2.1).stream = some s →
      (j.release_default c).2.2.2 =
        (j.priority c).2.2.2 ++
          (command.release j.id ((j.priority c).1) DEFAULT_JOB_DELAY).build)
    ∧
    (j.reserved = true → ∀ s, ((j.priority c).2.2.1).stream = some s →
      (j.bury_default c).2.2.2 =
        (j.priority c).2.2.2 ++
          (command.bury j.id ((j.priority c).1)).build) := by
  refine ⟨?_, ?_, ?_, ?_, ?_, ?_⟩
  · intro e h
    unfold Job.priority
    simp [h]
  · intro m h hl
    unfold Job.priority
    simp [h, hl]
  · intro m v h hl hp
    unfold Job.priority
    simp [h, hl, hp]
  · intro m v n h hl hp
    unfold Job.priority
    simp [h, hl, hp]
  · intro hres s hs
    have hw := send_writes ((j.priority c).2.2.1)
      (command.release j.id ((j.priority c).1) DEFAULT_JOB_DELAY) s hs
    have hq : (Job.release j ((j.priority c).2.2.1) ((j.priority c).1)
        DEFAULT_JOB_DELAY).2.2.2 =
        (command.release j.id ((j.priority c).1) DEFAULT_JOB_DELAY).build
        := by
      unfold Job.release
      rw [hres]
      rcases hd : (((j.priority c).2.2.1).release j.id ((j.priority c).1)
          DEFAULT_JOB_DELAY).1 with e | u
      · simp only [Bool.not_true, Bool.false_eq_true, if_false, hd]
        exact hw
      · simp only [Bool.not_true, Bool.false_eq_true, if_false, hd]
        exact hw
    show (j.priority c).2.2.2 ++ (Job.release j ((j.priority c).2.2.1)
      ((j.priority c).1) DEFAULT_JOB_DELAY).2.2.2 = _
    rw [hq]
  · intro hres s hs
    have hw := send_writes ((j.priority c).2.2.1)
      (command.bury j.id ((j.priority c).1)) s hs
    have hq : (Job.bury j ((j.priority c).2.2.1)
        ((j.priority c).1)).2.2.2 =
        (command.bury j.id ((j.priority c).1)).build := by
      unfold Job.bury
      rw [hres]
      rcases hd : (((j.priority c).2.2.1).bury j.id
          ((j.priority c).1)).1 with e | u
      · simp only [Bool.not_true, Bool.false_eq_true, if_false, hd]
        exact hw
      · simp only [Bool.not_true, Bool.false_eq_true, if_false, hd]
        exact hw
    show (j.priority c).2.2.2 ++ (Job.bury j ((j.priority c).2.2.1)
      ((j.priority c).1)).2.2.2 = _
    rw [hq]

/-- Witness for C8: job 1 against sessions whose stats answer fails
(`NOT_FOUND`), lacks `pri`, carries an unparseable `pri`, and carries
`pri: 1024`; plus a reserved job whose release-default and bury-default
wire traces carry the fetched priority. -/
theorem C8_witness :
    (Job.priority ⟨1, [], true⟩
      (sessionWith (bytes "NOT_FOUND\r\n"))).1 = DEFAULT_JOB_PRIORITY ∧
    (Job.priority ⟨1, [], true⟩
      (sessionWith (bytes "OK 4\r\n---\n\r\n"))).1 = DEFAULT_JOB_PRIORITY ∧
    (Job.priority ⟨1, [], true⟩
      (sessionWith (bytes "OK 9\r\npri: abc\n\r\n"))).1 =
        DEFAULT_JOB_PRIORITY ∧
    (Job.priority ⟨1, [], true⟩
      (sessionWith (bytes "OK 14\r\n---\npri: 1024\n\r\n"))).1 = 1024 ∧
    (Job.release_default ⟨1, [], true⟩
      (sessionWith
        (bytes "OK 14\r\n---\npri: 1024\n\r\nRELEASED\r\n"))).2.2.2 =
      (Job.priority ⟨1, [], true⟩
        (sessionWith
          (bytes "OK 14\r\n---\npri: 1024\n\r\nRELEASED\r\n"))).2.2.2 ++
        (command.release 1
          ((Job.priority ⟨1, [], true⟩
            (sessionWith
              (bytes "OK 14\r\n---\npri: 1024\n\r\nRELEASED\r\n"))).1)
          DEFAULT_JOB_DELAY).build ∧
    (Job.bury_default ⟨1, [], true⟩
      (sessionWith
        (bytes "OK 14\r\n---\npri: 1024\n\r\nBURIED\r\n"))).2.2.2 =
      (Job.priority ⟨1, [], true⟩
        (sessionWith
          (bytes "OK 14\r\n---\npri: 1024\n\r\nBURIED\r\n"))).2.2.2 ++
        (command.bury 1
          ((Job.priority ⟨1, [], true⟩
            (sessionWith
              (bytes "OK 14\r\n---\npri: 1024\n\r\nBURIED\r\n"))).1)).build
    :=
  ⟨(C8_default_priority ⟨1, [], true⟩
      (sessionWith (bytes "NOT_FOUND\r\n"))).1
      (.CommandFailed "NotFound") (by decide),
   (C8_default_priority ⟨1, [], true⟩
      (sessionWith (bytes "OK 4\r\n---\n\r\n"))).2.1
      [] (by decide) (by decide),
   (C8_default_priority ⟨1, [], true⟩
      (sessionWith (bytes "OK 9\r\npri: abc\n\r\n"))).2.2.1
      [("pri", "abc")] "abc" (by decide) (by decide) (by decide),
   (C8_default_priority ⟨1, [], true⟩
      (sessionWith (bytes "OK 14\r\n---\npri: 1024\n\r\n"))).2.2.2.1
      [("pri", "1024")] "1024" 1024 (by decide) (by decide) (by decide),
   (C8_default_priority ⟨1, [], true⟩
      (sessionWith
        (bytes "OK 14\r\n---\npri: 1024\n\r\nRELEASED\r\n"))).2.2.2.2.1
      rfl (bytes "RELEASED\r\n") (by decide),
   (C8_default_priority ⟨1, [], true⟩
      (sessionWith
        (bytes "OK 14\r\n---\npri: 1024\n\r\nBURIED\r\n"))).2.2.2.2.2
      rfl (bytes "BURIED\r\n") (by decide)⟩

/-- Evaluating `readBody` on a valid length and a sufficiently long stream:
exactly
`n + 2` bytes are consumed and the first `n` stored. -/
theorem readBody_complete (resp : Response) (slot n : Nat)
    (rest : List Nat) (hint : resp.get_int_param slot = .ok n)
    (hlen : n + 2 ≤ rest.length) :
    readBody resp slot rest =
      (.ok { resp with body := some (rest.take n) }, rest.drop (n + 2)) := by
  unfold readBody
  simp [hint, Nat.not_lt.mpr hlen]

/-- Evaluating `readBody` on a stream shorter than the declared `n + 2`
bytes is a
fatal `IoError`. -/
theorem readBody_short (resp : Response) (slot n : Nat) (rest : List Nat)
    (hint : resp.get_int_param slot = .ok n)
    (hlen : rest.length < n + 2) :
    readBody resp slot rest = (.error .IoError, []) := by
  unfold readBody
  simp [hint, hlen]

/-- Framer reduction on a well-formed line whose status is `Ok`: the body
rule is slot 0. -/
theorem request_send_ok_line (msg input line rest tok : List Nat)
    (ps : List (List Nat))
    (hline : readLine input = (line, rest))
    (hne : line.all isWS = false)
    (htok : splitWS line = tok :: ps)
    (hst : Status.from_str tok = .ok .Ok) :
    Request.send msg input = readBody ⟨.Ok, ps, none⟩ 0 rest := by
  simp only [Request.send]
  rw [hline]
  simp [hne, htok, hst]

/-- Framer reduction on a well-formed line whose status is `Reserved` or
`Found`: the body rule is slot 1. -/
theorem request_send_body_line (msg input line rest tok : List Nat)
    (ps : List (List Nat)) (st : Status)
    (hline : readLine input = (line, rest))
    (hne : line.all isWS = false)
    (htok : splitWS line = tok :: ps)
    (hbody : st = .Reserved ∨ st = .Found)
    (hst : Status.from_str tok = .ok st) :
    Request.send msg input = readBody ⟨st, ps, none⟩ 1 rest := by
  rcases hbody with h | h <;> subst h <;>
    (simp only [Request.send]; rw [hline]; simp [hne, htok, hst])

/-- Framer reduction on a well-formed line with any other status: the
response is returned with no body and nothing further is consumed. -/
theorem request_send_bodiless_line (msg input line rest tok : List Nat)
    (ps : List (List Nat)) (st : Status)
    (hline : readLine input = (line, rest))
    (hne : line.all isWS = false)
    (htok : splitWS line = tok :: ps)
    (hst : Status.from_str tok = .ok st)
    (h1 : st ≠ .Ok) (h2 : st ≠ .Reserved) (h3 : st ≠ .Found) :
    Request.send msg input = (.ok ⟨st, ps, none⟩, rest) := by
  simp only [Request.send]
  rw [hline]
  simp only [hne, htok, hst, Bool.false_eq_true, if_false, List.headD_cons,
    List.tail_cons]

/-- C2: the framer decides body presence and length by status alone — an
`Ok` status takes the body length from params slot 0, `Reserved` and
`Found` take it from slot 1, every other status yields no body; when a
body of length `n` is expected it consumes exactly `n + 2` bytes and
stores the first `n` as the body (truncating the two delimiter bytes),
and a stream shorter than the declared `n + 2` is a fatal `IoError`,
never a silently truncated body. -/
theorem C2_framer_body (msg input line rest tok : List Nat)
    (ps : List (List Nat)) (st : Status)
    (hline : readLine input = (line, rest))
    (hne : line.all isWS = false)
    (htok : splitWS line = tok :: ps)
    (hst : Status.from_str tok = .ok st) :
    (st ≠ .Ok → st ≠ .Reserved → st ≠ .Found →
      Request.send msg input = (.ok ⟨st, ps, none⟩, rest)) ∧
    (∀ n, st = .Ok →
      Response.get_int_param ⟨st, ps, none⟩ 0 = .ok n →
      n + 2 ≤ rest.length →
      Request.send msg input =
        (.ok ⟨st, ps, some (rest.take n)⟩, rest.drop (n + 2))) ∧
    (∀ n, st = .Reserved ∨ st = .Found →
      Response.get_int_param ⟨st, ps, none⟩ 1 = .ok n →
      n + 2 ≤ rest.length →
      Request.send msg input =
        (.ok ⟨st, ps, some (rest.take n)⟩, rest.drop (n + 2))) ∧
    (∀ n slot,
      (st = .Ok ∧ slot = 0) ∨ ((st = .Reserved ∨ st = .Found) ∧ slot = 1) →
      Response.get_int_param ⟨st, ps, none⟩ slot = .ok n →
      rest.length < n + 2 →
      Request.send msg input = (.error .IoError, [])) := by
  refine ⟨?_, ?_, ?_, ?_⟩
  · intro h1 h2 h3
    exact request_send_bodiless_line msg input line rest tok ps st hline hne
      htok hst h1 h2 h3
  · intro n hOk hint hlen
    subst hOk
    rw [request_send_ok_line msg input line rest tok ps hline hne htok hst,
      readBody_complete _ 0 n rest hint hlen]
  · intro n hor hint hlen
    rw [request_send_body_line msg input line rest tok ps st hline hne htok
      hor hst, readBody_complete _ 1 n rest hint hlen]
  · intro n slot hcase hint hlen
    rcases hcase with ⟨h, hslot⟩ | ⟨hor, hslot⟩
    · subst h
      subst hslot
      rw [request_send_ok_line msg input line rest tok ps hline hne htok
        hst, readBody_short _ 0 n rest hint hlen]
    · subst hslot
      rw [request_send_body_line msg input line rest tok ps st hline hne
        htok hor hst, readBody_short _ 1 n rest hint hlen]

/-- Witness for C2: a bodiless `NOT_FOUND` line, an `OK 14` stats body
read from slot 0, a `RESERVED 42 5` body read from slot 1 with the
delimiter truncated, and a `RESERVED 42 5` line over a stream three bytes
long, which is a fatal `IoError`. -/
theorem C2_witness :
    Request.send (bytes "peek-ready\r\n") (bytes "NOT_FOUND\r\n") =
      (.ok ⟨.NotFound, [], none⟩, []) ∧
    Request.send (bytes "stats-job 1\r\n")
        (bytes "OK 14\r\n---\npri: 1024\n\r\n") =
      (.ok ⟨.Ok, [bytes "14"],
        some ((bytes "---\npri: 1024\n\r\n").take 14)⟩,
       (bytes "---\npri: 1024\n\r\n").drop 16) ∧
    Request.send (bytes "reserve\r\n") (bytes "RESERVED 42 5\r\nhello\r\n")
      =
      (.ok ⟨.Reserved, [bytes "42", bytes "5"],
        some ((bytes "hello\r\n").take 5)⟩,
       (bytes "hello\r\n").drop 7) ∧
    Request.send (bytes "reserve\r\n") (bytes "RESERVED 42 5\r\nhel") =
      (.error .IoError, []) :=
  ⟨(C2_framer_body (bytes "peek-ready\r\n") (bytes "NOT_FOUND\r\n")
      (bytes "NOT_FOUND\r\n") [] (bytes "NOT_FOUND") [] .NotFound
      (by decide) (by decide) (by decide) (by decide)).1
      (by decide) (by decide) (by decide),
   (C2_framer_body (bytes "stats-job 1\r\n")
      (bytes "OK 14\r\n---\npri: 1024\n\r\n") (bytes "OK 14\r\n")
      (bytes "---\npri: 1024\n\r\n") (bytes "OK") [bytes "14"] .Ok
      (by decide) (by decide) (by decide) (by decide)).2.1
      14 rfl (by decide) (by decide),
   (C2_framer_body (bytes "reserve\r\n") (bytes "RESERVED 42 5\r\nhello\r\n")
      (bytes "RESERVED 42 5\r\n") (bytes "hello\r\n") (bytes "RESERVED")
      [bytes "42", bytes "5"] .Reserved
      (by decide) (by decide) (by decide) (by decide)).2.2.1
      5 (Or.inl rfl) (by decide) (by decide),
   (C2_framer_body (bytes "reserve\r\n") (bytes "RESERVED 42 5\r\nhel")
      (bytes "RESERVED 42 5\r\n") (bytes "hel") (bytes "RESERVED")
      [bytes "42", bytes "5"] .Reserved
      (by decide) (by decide) (by decide) (by decide)).2.2.2
      5 1 (Or.inr ⟨Or.inl rfl, rfl⟩) (by decide) (by decide)⟩

end Beanstalk
